import Mathlib

/-!
Verification of the QuizApp quiz session engine, shallowly embedded from
`src/app/(tabs)/index.tsx`.  The component keeps all its state in React
`useState` hooks; we collect those hooks into one record `QuizAppState`.
Handlers (`handleCategorySelect`, `handleAnswerSelect`, `restartQuiz`,
`saveScoreToFirebase`, the Firebase `quiz` subscription callback and the
timer effect) become pure functions on that record.  Side effects towards
Firebase (`push` on `"scores"`) are modelled as an `Option ScoreRecord` /
`List ScoreRecord` output.

`handleAnswerSelect` runs its body inside a 500 ms `setTimeout`; the body
reads `answers`, `quizData`, `currentQuestionIndex`, `score`,
`selectedCategory` from the render closure in which the handler was
created, while the `setXxx` calls always write the latest state.  To stay
faithful to that we give the settle body two state arguments: `captured`
(the closure the callback holds) and `s` (the state the setters write
into).  In the undisturbed sequential flow `captured = s`.
-/

/-- A quiz question, as in `constants/QuizData` and the remote bank:
`{ question, options, correct }` where `correct` is the index of the right
option.  JS numbers are modelled as `Int` so the `-1` timeout sentinel of
the timer effect is expressible. -/
structure Question where
  question : String
  options : List String
  correct : Int
deriving Repr, DecidableEq

/-- The record pushed under `"scores"` by `saveScoreToFirebase`:
`{ category, score, totalQuestions, date }`.  `category` is the component's
`selectedCategory` state (a nullable string).  The `date` field is a wall
clock timestamp supplied by the environment and carries no program logic,
so it is not modelled. -/
structure ScoreRecord where
  category : Option String
  score : Nat
  totalQuestions : Nat
deriving Repr, DecidableEq

/-- The `useState` hooks of the `QuizApp` component, in source order.
(`loading` is omitted: it is initialised to `false` and never written, and
only gates a loading screen.)  The bank is an association list so that
`Object.keys` order — insertion order of the mapping — is preserved. -/
structure QuizAppState where
  allQuizData : Option (List (String × List Question))
  categories : List String
  selectedCategory : Option String
  quizData : List Question
  currentQuestionIndex : Nat
  answers : List Int
  score : Nat
  isQuizCompleted : Bool
  timeLeft : Nat
  selectedIndex : Option Int
deriving Repr, DecidableEq

/-- The value the Firebase subscription on `"quiz"` can deliver:
absent (`snapshot.val()` null), an array (legacy shape), or a mapping
category → questions. -/
inductive RemotePayload where
  | absent
  | legacy (items : List Question)
  | valid (bank : List (String × List Question))
deriving Repr, DecidableEq

/-- The loop of `saveScoreToFirebase`:
`quizData.forEach((q, idx) => { if (finalAnswers[idx] === q.correct) finalScore++ })`,
translated with an explicit index.  An out-of-bounds access yields
`undefined`, which compares unequal to any number. -/
def computeFinalScoreAux (finalAnswers : List Int) : Nat → List Question → Nat
  | _, [] => 0
  | idx, q :: rest =>
    (if finalAnswers[idx]? = some q.correct then 1 else 0) +
      computeFinalScoreAux finalAnswers (idx + 1) rest

/-- `finalScore` as computed inside `saveScoreToFirebase`. -/
def computeFinalScore (qs : List Question) (finalAnswers : List Int) : Nat :=
  computeFinalScoreAux finalAnswers 0 qs

/-- `saveScoreToFirebase(finalAnswers)`: recomputes the score from the
recorded answers, pushes a `ScoreRecord` (returned here instead of sent),
and overwrites the `score` state with the recomputed value.  It reads
`quizData` and `selectedCategory` from its render closure (`captured`) and
writes into the live state `s`. -/
def saveScoreToFirebase (captured : QuizAppState) (s : QuizAppState)
    (finalAnswers : List Int) : QuizAppState × ScoreRecord :=
  let finalScore := computeFinalScore captured.quizData finalAnswers
  ({ s with score := finalScore },
   { category := captured.selectedCategory,
     score := finalScore,
     totalQuestions := captured.quizData.length })

/-- The body of the 500 ms `setTimeout` inside `handleAnswerSelect`.
Reads come from the render closure `captured`; writes go to the live
state `s`.  Note `quizData.length - 1` is JS `length - 1`; since
`currentQuestionIndex ≥ 0`, truncated `Nat` subtraction gives the same
branch: for an empty list JS compares `0 < -1` (false) and we compare
`0 < 0` (false). -/
def settleBody (captured : QuizAppState) (index : Int) (s : QuizAppState) :
    QuizAppState × Option ScoreRecord :=
  let newAnswers := captured.answers ++ [index]
  let s1 := { s with answers := newAnswers }
  let isCorrect :=
    match captured.quizData[captured.currentQuestionIndex]? with
    | some q => q.correct == index
    | none => false
  let s2 := if isCorrect then { s1 with score := captured.score + 1 } else s1
  if captured.currentQuestionIndex < captured.quizData.length - 1 then
    ({ s2 with currentQuestionIndex := captured.currentQuestionIndex + 1,
               timeLeft := 10,
               selectedIndex := none }, none)
  else
    let s3 := { s2 with isQuizCompleted := true }
    let p := saveScoreToFirebase captured s3 newAnswers
    (p.1, some p.2)

/-- `handleAnswerSelect(index)` in the undisturbed sequential flow: the
selection highlight is set, and the settle callback later fires against
the same state it captured. -/
def submitAnswer (s : QuizAppState) (index : Int) :
    QuizAppState × Option ScoreRecord :=
  let s1 := { s with selectedIndex := some index }
  settleBody s1 index s1

/-- `restartQuiz()`: resets the per-session fields, touching neither
`selectedCategory` nor `quizData` nor the bank. -/
def restartQuiz (s : QuizAppState) : QuizAppState :=
  { s with currentQuestionIndex := 0,
           answers := [],
           score := 0,
           isQuizCompleted := false,
           timeLeft := 10,
           selectedIndex := none }

/-- `handleCategorySelect(category)`: guarded by
`if (allQuizData && allQuizData[category])`.  A present empty array is
truthy in JS, so lookup success — even of an empty question list — passes
the guard; the category's list is snapshotted into `quizData` and the
session fields are reset. -/
def handleCategorySelect (s : QuizAppState) (category : String) : QuizAppState :=
  match s.allQuizData with
  | none => s
  | some bank =>
    match bank.lookup category with
    | none => s
    | some qs =>
      restartQuiz { s with selectedCategory := some category, quizData := qs }

/-- `handleBackToCategories()`. -/
def handleBackToCategories (s : QuizAppState) : QuizAppState :=
  restartQuiz { s with selectedCategory := none, quizData := [] }

/-- The Firebase subscription callback on `"quiz"`: null is ignored, an
array (legacy shape) is ignored with a diagnostic log, and a mapping is
adopted wholesale with `categories = Object.keys(data)` (insertion
order). Session fields are never written. -/
def onQuizValue (s : QuizAppState) (p : RemotePayload) : QuizAppState :=
  match p with
  | .absent => s
  | .legacy _ => s
  | .valid bank =>
    { s with allQuizData := some bank, categories := bank.map Prod.fst }

/-- One firing of the timer effect's scheduled work: while
`selectedCategory && timeLeft > 0 && !isQuizCompleted` the pending
`setTimeout` decrements `timeLeft`; when the effect re-runs with
`timeLeft === 0` it calls `handleAnswerSelect(-1)`. -/
def timerTick (s : QuizAppState) : QuizAppState × Option ScoreRecord :=
  if s.selectedCategory.isSome ∧ 0 < s.timeLeft ∧ s.isQuizCompleted = false then
    ({ s with timeLeft := s.timeLeft - 1 }, none)
  else if s.selectedCategory.isSome ∧ s.timeLeft = 0 ∧ s.isQuizCompleted = false then
    submitAnswer s (-1)
  else (s, none)

/-- Iterate `timerTick`, collecting every pushed `ScoreRecord`. -/
def runTicks : Nat → QuizAppState → QuizAppState × List ScoreRecord
  | 0, s => (s, [])
  | n + 1, s =>
    let p := timerTick s
    let q := runTicks n p.1
    (q.1, p.2.toList ++ q.2)

/-- Run `submitAnswer` once per entry of `as` (a user pick, or `-1` for a
timeout), keeping only the state. -/
def runAnswers : QuizAppState → List Int → QuizAppState
  | s, [] => s
  | s, a :: rest => runAnswers (submitAnswer s a).1 rest

/-- The completion screen's percentage,
`(score / quizData.length * 100).toFixed(0)`.  JS division of floats by
zero produces `NaN` (for `0/0`) or `Infinity`; neither is a number, so
the zero-denominator case is modelled as `none` and a finite percentage
as `some` of an exact rational. -/
def completionPercentage (score total : Nat) : Option ℚ :=
  if total = 0 then none
  else some ((score : ℚ) / (total : ℚ) * 100)

/-- The spec's authoritative score: the count of indices `i` with
`answers[i] == questions[i].correct`. -/
def countCorrect (qs : List Question) (ans : List Int) : Nat :=
  (List.range qs.length).countP fun i =>
    match qs[i]? with
    | some q => ans[i]? == some q.correct
    | none => false

/-! ### The recomputed score equals the spec's per-index count -/

/-- One `cons` step of the authoritative count: the head question is
checked against `answers[0]`, the tail against the remaining answers. -/
theorem countCorrect_cons (q : Question) (rest : List Question) (ans : List Int) :
    countCorrect (q :: rest) ans =
      (if ans[0]? = some q.correct then 1 else 0) + countCorrect rest (ans.drop 1) := by
  have key : ((fun i => match (q :: rest)[i]? with
        | some q2 => ans[i]? == some q2.correct
        | none => false) ∘ Nat.succ)
      = (fun i => match rest[i]? with
        | some q2 => (ans.drop 1)[i]? == some q2.correct
        | none => false) := by
    funext i
    simp only [Function.comp_apply, Nat.succ_eq_add_one, List.getElem?_cons_succ]
    cases h : rest[i]? with
    | none => rfl
    | some q2 => rw [List.getElem?_drop, Nat.add_comm 1 i]
  unfold countCorrect
  rw [List.length_cons, List.range_succ_eq_map, List.countP_cons, List.countP_map, key]
  simp only [List.getElem?_cons_zero, beq_iff_eq]
  rcases em (ans[0]? = some q.correct) with h | h <;> simp [h, Nat.add_comm]

/-- Starting the `forEach` translation one index later is the same as
dropping the first answer. -/
theorem computeFinalScoreAux_shift (ans : List Int) (qs : List Question) (k : Nat) :
    computeFinalScoreAux ans (k + 1) qs = computeFinalScoreAux (ans.drop 1) k qs := by
  induction qs generalizing k with
  | nil => rfl
  | cons q rest ih =>
    simp only [computeFinalScoreAux, ih, List.getElem?_drop]
    rw [Nat.add_comm 1 k]

/-- The `finalScore` loop of `saveScoreToFirebase` computes exactly the
spec's `count(i where answers[i] == questions[i].correct)`. -/
theorem computeFinalScore_eq_countCorrect (qs : List Question) (ans : List Int) :
    computeFinalScore qs ans = countCorrect qs ans := by
  induction qs generalizing ans with
  | nil => rfl
  | cons q rest ih =>
    rw [countCorrect_cons, ← ih]
    unfold computeFinalScore
    simp only [computeFinalScoreAux, Nat.zero_add]
    rw [computeFinalScoreAux_shift]

/-- The authoritative count never exceeds the number of questions. -/
theorem countCorrect_le_length (qs : List Question) (ans : List Int) :
    countCorrect qs ans ≤ qs.length := by
  unfold countCorrect
  calc List.countP _ (List.range qs.length) ≤ (List.range qs.length).length :=
        List.countP_le_length _
    _ = qs.length := List.length_range _

/-! ### Stepping lemmas for the undisturbed answer flow -/

/-- `submitAnswer` on a non-final question appends the answer and advances
the cursor, leaving the completion flag and the question snapshot alone. -/
theorem submitAnswer_advance (s : QuizAppState) (a : Int)
    (h : s.currentQuestionIndex < s.quizData.length - 1) :
    (submitAnswer s a).1.answers = s.answers ++ [a] ∧
    (submitAnswer s a).1.currentQuestionIndex = s.currentQuestionIndex + 1 ∧
    (submitAnswer s a).1.isQuizCompleted = s.isQuizCompleted ∧
    (submitAnswer s a).1.quizData = s.quizData := by
  simp only [submitAnswer, settleBody]
  rw [if_pos h]
  split <;> simp

/-- `submitAnswer` on the final question appends the answer and completes
the quiz, leaving the question snapshot alone. -/
theorem submitAnswer_complete (s : QuizAppState) (a : Int)
    (h : ¬ s.currentQuestionIndex < s.quizData.length - 1) :
    (submitAnswer s a).1.answers = s.answers ++ [a] ∧
    (submitAnswer s a).1.isQuizCompleted = true ∧
    (submitAnswer s a).1.quizData = s.quizData := by
  simp only [submitAnswer, settleBody, saveScoreToFirebase]
  rw [if_neg h]
  split <;> simp

/-- Answering once per remaining question, starting from a state whose
cursor sits at the end of its answer log, completes the quiz with one
recorded answer per question. -/
theorem runAnswers_completes (as : List Int) : ∀ s : QuizAppState,
    s.isQuizCompleted = false →
    s.currentQuestionIndex = s.answers.length →
    s.answers.length + as.length = s.quizData.length →
    as ≠ [] →
    (runAnswers s as).isQuizCompleted = true ∧
    (runAnswers s as).answers.length = (runAnswers s as).quizData.length ∧
    (runAnswers s as).quizData = s.quizData := by
  induction as with
  | nil => intro s _ _ _ hne; exact absurd rfl hne
  | cons a rest ih =>
    intro s hcomp hcur hlen _
    rcases rest with _ | ⟨b, rest2⟩
    · -- last question
      have hlast : ¬ s.currentQuestionIndex < s.quizData.length - 1 := by
        simp only [List.length_cons, List.length_nil] at hlen
        omega
      obtain ⟨h1, h2, h3⟩ := submitAnswer_complete s a hlast
      simp only [runAnswers]
      refine ⟨h2, ?_, h3⟩
      rw [h1, h3, List.length_append]
      simp only [List.length_cons, List.length_nil] at hlen ⊢
      omega
    · -- more questions remain
      have hadv : s.currentQuestionIndex < s.quizData.length - 1 := by
        simp only [List.length_cons] at hlen
        omega
      obtain ⟨h1, h2, h3, h4⟩ := submitAnswer_advance s a hadv
      simp only [runAnswers]
      have := ih (submitAnswer s a).1
        (by rw [h3]; exact hcomp)
        (by rw [h2, h1, hcur]; simp)
        (by rw [h1, h4]
            simp only [List.length_append, List.length_cons, List.length_nil] at hlen ⊢
            omega)
        (by simp)
      rw [h4] at this
      exact this

/-! ### Concrete fixtures used by witnesses and counterexample traces -/

/-- A sample question with a valid `correct` index. -/
def exampleQuestion : Question :=
  { question := "sample", options := ["a", "b", "c", "d"], correct := 1 }

/-- The component's initial hook values (what `useState` initialisers set
up), with the bundled `QuizData` bank abstracted into a parameter. -/
def initialState (bank : List (String × List Question)) : QuizAppState :=
  { allQuizData := some bank
    categories := bank.map Prod.fst
    selectedCategory := none
    quizData := []
    currentQuestionIndex := 0
    answers := []
    score := 0
    isQuizCompleted := false
    timeLeft := 10
    selectedIndex := none }

/-! ### Countdown lemmas -/

/-- While time remains and the quiz is live, a tick just decrements
`timeLeft`. -/
theorem timerTick_decrement (s : QuizAppState) (h1 : s.selectedCategory.isSome = true)
    (h2 : 0 < s.timeLeft) (h3 : s.isQuizCompleted = false) :
    timerTick s = ({ s with timeLeft := s.timeLeft - 1 }, none) := by
  unfold timerTick
  rw [if_pos ⟨h1, h2, h3⟩]

/-- When the countdown has reached 0 on a live quiz, the effect fires
`handleAnswerSelect(-1)`. -/
theorem timerTick_expire (s : QuizAppState) (h1 : s.selectedCategory.isSome = true)
    (h2 : s.timeLeft = 0) (h3 : s.isQuizCompleted = false) :
    timerTick s = submitAnswer s (-1) := by
  unfold timerTick
  rw [if_neg (by rintro ⟨-, hp, -⟩; omega), if_pos ⟨h1, h2, h3⟩]

/-- Unfolding equation for one iteration of `runTicks`. -/
theorem runTicks_succ (n : Nat) (s : QuizAppState) :
    runTicks (n + 1) s =
      ((runTicks n (timerTick s).1).1,
       ((timerTick s).2).toList ++ (runTicks n (timerTick s).1).2) := rfl

/-- From a live quiz with `timeLeft = n`, running the timer `n + 1` times
counts down to 0 and then performs the automatic timeout submission. -/
theorem runTicks_to_timeout (n : Nat) : ∀ s : QuizAppState,
    s.selectedCategory.isSome = true → s.isQuizCompleted = false → s.timeLeft = n →
    runTicks (n + 1) s =
      ((submitAnswer { s with timeLeft := 0 } (-1)).1,
       ((submitAnswer { s with timeLeft := 0 } (-1)).2).toList) := by
  induction n with
  | zero =>
    intro s h1 h2 h3
    have hs : ({ s with timeLeft := 0 } : QuizAppState) = s := by
      cases s; simp_all
    rw [runTicks_succ, timerTick_expire s h1 h3 h2, hs]
    simp [runTicks]
  | succ n ih =>
    intro s h1 h2 h3
    rw [runTicks_succ, timerTick_decrement s h1 (by omega) h2]
    have ihs := ih { s with timeLeft := s.timeLeft - 1 } (by simpa using h1)
      (by simpa using h2) (by simp [h3])
    simp only at ihs
    simp only [ihs]
    simp

/-! ### The claims -/

/-- Claim C1: completing a session (the settle callback runs with the
cursor on the last question) publishes a `ScoreRecord` whose score is the
recount `count(i where answers[i] == questions[i].correct)` over the
recorded answer log, and overwrites the incrementally maintained `score`
field with that same value.  The incoming `s.score` does not appear in the
conclusion, so the result is independent of the incremental score. -/
theorem finalize_recomputes_score (s : QuizAppState) (index : Int)
    (hlast : ¬ s.currentQuestionIndex < s.quizData.length - 1) :
    (submitAnswer s index).2 =
      some { category := s.selectedCategory,
             score := countCorrect s.quizData (s.answers ++ [index]),
             totalQuestions := s.quizData.length } ∧
    (submitAnswer s index).1.score = countCorrect s.quizData (s.answers ++ [index]) ∧
    (submitAnswer s index).1.isQuizCompleted = true := by
  simp only [submitAnswer, settleBody, saveScoreToFirebase, computeFinalScore_eq_countCorrect]
  rw [if_neg hlast]
  split <;> simp

theorem finalize_recomputes_score_witness :
    (¬ (handleCategorySelect (initialState [("Math", [exampleQuestion])])
        "Math").currentQuestionIndex <
        (handleCategorySelect (initialState [("Math", [exampleQuestion])])
          "Math").quizData.length - 1) ∧
    ((submitAnswer (handleCategorySelect (initialState [("Math", [exampleQuestion])])
        "Math") 1).2 =
      some { category := (handleCategorySelect (initialState [("Math", [exampleQuestion])])
               "Math").selectedCategory,
             score := countCorrect
               (handleCategorySelect (initialState [("Math", [exampleQuestion])])
                 "Math").quizData
               ((handleCategorySelect (initialState [("Math", [exampleQuestion])])
                 "Math").answers ++ [1]),
             totalQuestions := (handleCategorySelect (initialState [("Math", [exampleQuestion])])
               "Math").quizData.length } ∧
     (submitAnswer (handleCategorySelect (initialState [("Math", [exampleQuestion])])
        "Math") 1).1.score =
       countCorrect
         (handleCategorySelect (initialState [("Math", [exampleQuestion])])
           "Math").quizData
         ((handleCategorySelect (initialState [("Math", [exampleQuestion])])
           "Math").answers ++ [1]) ∧
     (submitAnswer (handleCategorySelect (initialState [("Math", [exampleQuestion])])
        "Math") 1).1.isQuizCompleted = true) :=
  ⟨by decide,
   finalize_recomputes_score
     (handleCategorySelect (initialState [("Math", [exampleQuestion])]) "Math") 1
     (by decide)⟩

/-- Claim C2: the source has no lock against a second recording for the
same cursor.  Trace: a single-question session with 1 s left; the user
submits option 0 (the correct one); before the 500 ms settle delay ends,
the countdown reaches 0 and the timer effect fires `handleAnswerSelect(-1)`
for the same cursor.  Each scheduled settle callback holds the render
closure from before any recording (`answers = []`, cursor 0).  The first
callback records `[0]`, completes the quiz and publishes score 1; the
second is not a no-op: it overwrites the answer log with `[-1]` and
publishes a second, contradictory `ScoreRecord` with score 0. -/
theorem timeout_during_settle_double_records :
    let q : Question := { question := "sample", options := ["a", "b", "c", "d"], correct := 0 }
    let sA : QuizAppState :=
      { handleCategorySelect (initialState [("Algorithms", [q])]) "Algorithms" with
          timeLeft := 1 }
    let sB : QuizAppState := { sA with selectedIndex := some 0 }
    let sC : QuizAppState := (timerTick sB).1
    let sD : QuizAppState := { sC with selectedIndex := some (-1) }
    let fire1 := settleBody sA 0 sD
    let fire2 := settleBody sC (-1) fire1.1
    fire1.1.answers = [0] ∧ fire1.1.isQuizCompleted = true ∧
    fire1.2 = some { category := some "Algorithms", score := 1, totalQuestions := 1 } ∧
    fire2.1 ≠ fire1.1 ∧
    fire2.1.answers = [-1] ∧
    fire2.2 = some { category := some "Algorithms", score := 0, totalQuestions := 1 } := by
  decide

/-- Claim C3: `handleCategorySelect` on a category mapped to an empty
question list does not no-op or crash (an empty JS array is truthy), and
the session completes on the first timeout with `score = 0` of
`totalQuestions = 0`; but the completion screen's percentage
`(score / quizData.length * 100)` is then `0 / 0`, which is not a number
(`none` here, `NaN` in JS) — it is not the defined value `0%`. -/
theorem empty_category_percentage_nan :
    let s1 : QuizAppState := handleCategorySelect (initialState [("Empty", [])]) "Empty"
    let r := runTicks 11 s1
    s1.selectedCategory = some "Empty" ∧
    r.1.isQuizCompleted = true ∧ r.1.score = 0 ∧ r.1.quizData = [] ∧
    r.2 = [{ category := some "Empty", score := 0, totalQuestions := 0 }] ∧
    completionPercentage r.1.score r.1.quizData.length = none ∧
    ¬ completionPercentage r.1.score r.1.quizData.length = some 0 := by
  decide

/-- Claim C4: a legacy (array-shaped) payload delivered by the `"quiz"`
subscription is rejected outright — the entire component state, in
particular the bank `allQuizData` and the `categories` list, is left
unchanged. -/
theorem legacy_payload_rejected (s : QuizAppState) (items : List Question) :
    onQuizValue s (RemotePayload.legacy items) = s := rfl

/-- Claim C5: a mapping payload is adopted verbatim as the new bank (no
merge), `categories` becomes exactly its keys in insertion order, and a
subsequent `handleCategorySelect` of one of those keys snapshots that
payload's question list. -/
theorem valid_payload_adopted (s : QuizAppState) (bank : List (String × List Question))
    (c : String) (qs : List Question) (hc : bank.lookup c = some qs) :
    (onQuizValue s (RemotePayload.valid bank)).allQuizData = some bank ∧
    (onQuizValue s (RemotePayload.valid bank)).categories = bank.map Prod.fst ∧
    (handleCategorySelect (onQuizValue s (RemotePayload.valid bank)) c).quizData = qs := by
  refine ⟨rfl, rfl, ?_⟩
  simp [onQuizValue, handleCategorySelect, hc, restartQuiz]

theorem valid_payload_adopted_witness :
    ([("Math", [exampleQuestion, exampleQuestion])].lookup "Math" =
      some [exampleQuestion, exampleQuestion]) ∧
    ((onQuizValue (initialState [("General", [exampleQuestion])])
        (RemotePayload.valid [("Math", [exampleQuestion, exampleQuestion])])).allQuizData =
      some [("Math", [exampleQuestion, exampleQuestion])] ∧
     (onQuizValue (initialState [("General", [exampleQuestion])])
        (RemotePayload.valid [("Math", [exampleQuestion, exampleQuestion])])).categories =
      [("Math", [exampleQuestion, exampleQuestion])].map Prod.fst ∧
     (handleCategorySelect
        (onQuizValue (initialState [("General", [exampleQuestion])])
          (RemotePayload.valid [("Math", [exampleQuestion, exampleQuestion])]))
        "Math").quizData = [exampleQuestion, exampleQuestion]) :=
  ⟨by decide,
   valid_payload_adopted (initialState [("General", [exampleQuestion])])
     [("Math", [exampleQuestion, exampleQuestion])] "Math"
     [exampleQuestion, exampleQuestion] (by decide)⟩

/-- Claim C6: for a category of the bank whose question list is non-empty
(the QuestionBank invariant guarantees at least one question per
category), selecting it and then recording one entry per question — any
option index or the `-1` timeout sentinel — ends with `isQuizCompleted`
true and exactly one recorded answer per question. -/
theorem select_category_answer_all_completes (s : QuizAppState)
    (bank : List (String × List Question)) (c : String) (qs : List Question)
    (as : List Int) (hb : s.allQuizData = some bank) (hc : bank.lookup c = some qs)
    (hne : qs ≠ []) (hlen : as.length = qs.length) :
    (runAnswers (handleCategorySelect s c) as).isQuizCompleted = true ∧
    (runAnswers (handleCategorySelect s c) as).answers.length =
      (runAnswers (handleCategorySelect s c) as).quizData.length := by
  have hsel : handleCategorySelect s c =
      restartQuiz { s with selectedCategory := some c, quizData := qs } := by
    unfold handleCategorySelect
    rw [hb]
    simp only [hc]
  have hne2 : as ≠ [] := by
    intro h
    apply hne
    apply List.eq_nil_of_length_eq_zero
    rw [← hlen, h]
    rfl
  have hrun := runAnswers_completes as
    (restartQuiz { s with selectedCategory := some c, quizData := qs })
    rfl rfl (by simp [restartQuiz, hlen]) hne2
  rw [hsel]
  exact ⟨hrun.1, hrun.2.1⟩

theorem select_category_answer_all_completes_witness :
    ((initialState [("Math", [exampleQuestion, exampleQuestion])]).allQuizData =
      some [("Math", [exampleQuestion, exampleQuestion])] ∧
     [("Math", [exampleQuestion, exampleQuestion])].lookup "Math" =
      some [exampleQuestion, exampleQuestion] ∧
     [exampleQuestion, exampleQuestion] ≠ ([] : List Question) ∧
     [(1 : Int), -1].length = [exampleQuestion, exampleQuestion].length) ∧
    ((runAnswers (handleCategorySelect
        (initialState [("Math", [exampleQuestion, exampleQuestion])]) "Math")
        [1, -1]).isQuizCompleted = true ∧
     (runAnswers (handleCategorySelect
        (initialState [("Math", [exampleQuestion, exampleQuestion])]) "Math")
        [1, -1]).answers.length =
       (runAnswers (handleCategorySelect
          (initialState [("Math", [exampleQuestion, exampleQuestion])]) "Math")
          [1, -1]).quizData.length) :=
  ⟨⟨by decide, by decide, by decide, by decide⟩,
   select_category_answer_all_completes
     (initialState [("Math", [exampleQuestion, exampleQuestion])])
     [("Math", [exampleQuestion, exampleQuestion])] "Math"
     [exampleQuestion, exampleQuestion] [1, -1]
     (by decide) (by decide) (by decide) (by decide)⟩

/-- Claim C7: the countdown-expiry path of the timer effect is literally
`handleAnswerSelect(-1)` — `timerTick` on a live quiz with `timeLeft = 0`
equals `submitAnswer` with the `-1` sentinel; and in a fresh
single-question session with a valid correct index (so the sentinel can
never match), eleven timer firings (ten decrements from 10, then the
expiry) complete the quiz, publish exactly one `ScoreRecord` with score 0,
and leave the displayed score 0. -/
theorem timeout_equals_sentinel_submit (t s : QuizAppState) (cat : String) (q : Question)
    (ht1 : t.selectedCategory.isSome = true) (ht2 : t.timeLeft = 0)
    (ht3 : t.isQuizCompleted = false)
    (hs1 : s.selectedCategory = some cat) (hs2 : s.quizData = [q])
    (hs3 : s.currentQuestionIndex = 0) (hs4 : s.answers = [])
    (hs5 : s.isQuizCompleted = false) (hs6 : s.timeLeft = 10)
    (hq : 0 ≤ q.correct) :
    timerTick t = submitAnswer t (-1) ∧
    (runTicks 11 s).1.isQuizCompleted = true ∧
    (runTicks 11 s).1.score = 0 ∧
    (runTicks 11 s).2 = [{ category := some cat, score := 0, totalQuestions := 1 }] := by
  have hneq : ¬ (some (-1 : Int) = some q.correct) := by
    simp only [Option.some.injEq]; omega
  refine ⟨timerTick_expire t ht1 ht2 ht3, ?_⟩
  have hrun := runTicks_to_timeout 10 s (by rw [hs1]; rfl) hs5 hs6
  rw [show (11 : Nat) = 10 + 1 from rfl, hrun]
  simp only [submitAnswer, settleBody, saveScoreToFirebase, computeFinalScore,
    computeFinalScoreAux, hs1, hs2, hs3, hs4]
  rw [if_neg (by simp)]
  simp [hneq]

/-- A concrete single-question session, used by witnesses below. -/
def exampleSession : QuizAppState :=
  handleCategorySelect (initialState [("Math", [exampleQuestion])]) "Math"

theorem timeout_equals_sentinel_submit_witness :
    (({ exampleSession with timeLeft := 0 } : QuizAppState).selectedCategory.isSome = true ∧
     ({ exampleSession with timeLeft := 0 } : QuizAppState).timeLeft = 0 ∧
     ({ exampleSession with timeLeft := 0 } : QuizAppState).isQuizCompleted = false ∧
     exampleSession.selectedCategory = some "Math" ∧
     exampleSession.quizData = [exampleQuestion] ∧
     exampleSession.currentQuestionIndex = 0 ∧
     exampleSession.answers = [] ∧
     exampleSession.isQuizCompleted = false ∧
     exampleSession.timeLeft = 10 ∧
     0 ≤ exampleQuestion.correct) ∧
    (timerTick { exampleSession with timeLeft := 0 } =
       submitAnswer { exampleSession with timeLeft := 0 } (-1) ∧
     (runTicks 11 exampleSession).1.isQuizCompleted = true ∧
     (runTicks 11 exampleSession).1.score = 0 ∧
     (runTicks 11 exampleSession).2 =
       [{ category := some "Math", score := 0, totalQuestions := 1 }]) :=
  ⟨⟨by decide, by decide, by decide, by decide, by decide, by decide, by decide,
    by decide, by decide, by decide⟩,
   timeout_equals_sentinel_submit { exampleSession with timeLeft := 0 }
     exampleSession "Math" exampleQuestion
     (by decide) (by decide) (by decide) (by decide) (by decide) (by decide)
     (by decide) (by decide) (by decide) (by decide)⟩

/-- Claim C8: `restartQuiz` from a completed session zeroes the cursor,
score and answer log, clears completion, resets `timeLeft` to 10 and the
selection highlight to none, and leaves the selected category and the
session's snapshotted question list untouched. -/
theorem restart_resets_session_fields (s : QuizAppState) (h : s.isQuizCompleted = true) :
    (restartQuiz s).currentQuestionIndex = 0 ∧ (restartQuiz s).score = 0 ∧
    (restartQuiz s).answers = [] ∧ (restartQuiz s).isQuizCompleted = false ∧
    (restartQuiz s).timeLeft = 10 ∧ (restartQuiz s).selectedIndex = none ∧
    (restartQuiz s).selectedCategory = s.selectedCategory ∧
    (restartQuiz s).quizData = s.quizData :=
  ⟨rfl, rfl, rfl, rfl, rfl, rfl, rfl, rfl⟩

theorem restart_resets_session_fields_witness :
    ((submitAnswer exampleSession 1).1.isQuizCompleted = true) ∧
    ((restartQuiz (submitAnswer exampleSession 1).1).currentQuestionIndex = 0 ∧
     (restartQuiz (submitAnswer exampleSession 1).1).score = 0 ∧
     (restartQuiz (submitAnswer exampleSession 1).1).answers = [] ∧
     (restartQuiz (submitAnswer exampleSession 1).1).isQuizCompleted = false ∧
     (restartQuiz (submitAnswer exampleSession 1).1).timeLeft = 10 ∧
     (restartQuiz (submitAnswer exampleSession 1).1).selectedIndex = none ∧
     (restartQuiz (submitAnswer exampleSession 1).1).selectedCategory =
       (submitAnswer exampleSession 1).1.selectedCategory ∧
     (restartQuiz (submitAnswer exampleSession 1).1).quizData =
       (submitAnswer exampleSession 1).1.quizData) :=
  ⟨by decide, restart_resets_session_fields (submitAnswer exampleSession 1).1 (by decide)⟩

/-- Claim C9: the subscription callback never writes a session field — any
payload leaves `selectedCategory`, `quizData`, the cursor, the answer log,
the score, the completion flag, the timer and the selection highlight of
any state exactly as they were; and because `handleCategorySelect`
snapshotted the chosen list into `quizData`, a bank replacement arriving
after selection leaves the in-progress session on the originally selected
questions. -/
theorem bank_update_preserves_session (u s : QuizAppState) (p p2 : RemotePayload)
    (bank : List (String × List Question)) (c : String) (qs : List Question)
    (hb : s.allQuizData = some bank) (hc : bank.lookup c = some qs) :
    ((onQuizValue u p).selectedCategory = u.selectedCategory ∧
     (onQuizValue u p).quizData = u.quizData ∧
     (onQuizValue u p).currentQuestionIndex = u.currentQuestionIndex ∧
     (onQuizValue u p).answers = u.answers ∧
     (onQuizValue u p).score = u.score ∧
     (onQuizValue u p).isQuizCompleted = u.isQuizCompleted ∧
     (onQuizValue u p).timeLeft = u.timeLeft ∧
     (onQuizValue u p).selectedIndex = u.selectedIndex) ∧
    (onQuizValue (handleCategorySelect s c) p2).quizData = qs := by
  constructor
  · cases p <;> simp [onQuizValue]
  · cases p2 <;> simp [onQuizValue, handleCategorySelect, hb, hc, restartQuiz]

theorem bank_update_preserves_session_witness :
    ((initialState [("General", [exampleQuestion])]).allQuizData =
       some [("General", [exampleQuestion])] ∧
     [("General", [exampleQuestion])].lookup "General" = some [exampleQuestion]) ∧
    (((onQuizValue (initialState [("General", [exampleQuestion])])
         (RemotePayload.valid [("Math", [exampleQuestion, exampleQuestion])])).selectedCategory =
        (initialState [("General", [exampleQuestion])]).selectedCategory ∧
      (onQuizValue (initialState [("General", [exampleQuestion])])
         (RemotePayload.valid [("Math", [exampleQuestion, exampleQuestion])])).quizData =
        (initialState [("General", [exampleQuestion])]).quizData ∧
      (onQuizValue (initialState [("General", [exampleQuestion])])
         (RemotePayload.valid [("Math", [exampleQuestion, exampleQuestion])])).currentQuestionIndex =
        (initialState [("General", [exampleQuestion])]).currentQuestionIndex ∧
      (onQuizValue (initialState [("General", [exampleQuestion])])
         (RemotePayload.valid [("Math", [exampleQuestion, exampleQuestion])])).answers =
        (initialState [("General", [exampleQuestion])]).answers ∧
      (onQuizValue (initialState [("General", [exampleQuestion])])
         (RemotePayload.valid [("Math", [exampleQuestion, exampleQuestion])])).score =
        (initialState [("General", [exampleQuestion])]).score ∧
      (onQuizValue (initialState [("General", [exampleQuestion])])
         (RemotePayload.valid [("Math", [exampleQuestion, exampleQuestion])])).isQuizCompleted =
        (initialState [("General", [exampleQuestion])]).isQuizCompleted ∧
      (onQuizValue (initialState [("General", [exampleQuestion])])
         (RemotePayload.valid [("Math", [exampleQuestion, exampleQuestion])])).timeLeft =
        (initialState [("General", [exampleQuestion])]).timeLeft ∧
      (onQuizValue (initialState [("General", [exampleQuestion])])
         (RemotePayload.valid [("Math", [exampleQuestion, exampleQuestion])])).selectedIndex =
        (initialState [("General", [exampleQuestion])]).selectedIndex) ∧
     (onQuizValue (handleCategorySelect (initialState [("General", [exampleQuestion])]) "General")
        (RemotePayload.valid [("Math", [exampleQuestion, exampleQuestion])])).quizData =
       [exampleQuestion]) :=
  ⟨⟨by decide, by decide⟩,
   bank_update_preserves_session (initialState [("General", [exampleQuestion])])
     (initialState [("General", [exampleQuestion])])
     (RemotePayload.valid [("Math", [exampleQuestion, exampleQuestion])])
     (RemotePayload.valid [("Math", [exampleQuestion, exampleQuestion])])
     [("General", [exampleQuestion])] "General" [exampleQuestion]
     (by decide) (by decide)⟩

/-- Claim C10: every `ScoreRecord` produced by the settle callback (the
only publish site, reached exactly when the session completes) is
internally consistent: its score is at most `totalQuestions` (a `Nat`, so
also at least 0), its `totalQuestions` equals the length of the session's
question snapshot, and its `category` is the session's selected
category. -/
theorem published_record_consistent (captured s : QuizAppState) (index : Int)
    (r : ScoreRecord) (h : (settleBody captured index s).2 = some r) :
    r.score ≤ r.totalQuestions ∧ r.totalQuestions = captured.quizData.length ∧
      r.category = captured.selectedCategory := by
  simp only [settleBody, saveScoreToFirebase] at h
  split at h
  · simp at h
  · simp only [Option.some.injEq] at h
    subst h
    refine ⟨?_, rfl, rfl⟩
    simp [computeFinalScore_eq_countCorrect, countCorrect_le_length]

theorem published_record_consistent_witness :
    ((settleBody exampleSession 1 exampleSession).2 =
      some { category := some "Math", score := 1, totalQuestions := 1 }) ∧
    (({ category := some "Math", score := 1, totalQuestions := 1 } : ScoreRecord).score ≤
       ({ category := some "Math", score := 1, totalQuestions := 1 } : ScoreRecord).totalQuestions ∧
     ({ category := some "Math", score := 1, totalQuestions := 1 } : ScoreRecord).totalQuestions =
       exampleSession.quizData.length ∧
     ({ category := some "Math", score := 1, totalQuestions := 1 } : ScoreRecord).category =
       exampleSession.selectedCategory) :=
  ⟨by decide,
   published_record_consistent exampleSession exampleSession 1
     { category := some "Math", score := 1, totalQuestions := 1 } (by decide)⟩
